import Mathlib

/-!
Verification of the ANT protocol engine in `src/ant/base.py` (module `ant.base`,
classes `Message` and `Ant`).  The Python code is shallowly embedded: bytes are
natural numbers below 256, byte strings are `List Nat`, Python exceptions
(`TypeError` from `reduce` on an empty sequence, `OverflowError` from
`array.array('B', ...)`, `IndexError`, failed `assert`) are modelled as `none`.
-/

/-- Python's `reduce(lambda x, y: x ^ y, l)` as used at `src/ant/base.py:146`
and `:172`: folds xor over a nonempty list; on an empty list `reduce` raises
`TypeError` (no initial value), modelled as `none`. -/
def reduceXor : List Nat → Option Nat
  | [] => none
  | x :: xs => some (xs.foldl (fun a b => a ^^^ b) x)

/-- The `Message` object of `src/ant/base.py` (fields `_sync`, `_length`,
`_id`, `_data`, `_checksum`). -/
structure Message where
  sync : Nat
  length : Nat
  mId : Nat
  data : List Nat
  checksum : Nat
deriving Repr, DecidableEq

namespace Message.ID

/-- Message.ID.STARTUP_MESSAGE (src/ant/base.py:66). -/
def STARTUP_MESSAGE : Nat := 0x6F

/-- Message.ID.SERIAL_ERROR_MESSAGE (src/ant/base.py:67). -/
def SERIAL_ERROR_MESSAGE : Nat := 0xAE

/-- Message.ID.REQUEST_MESSAGE (src/ant/base.py:74). -/
def REQUEST_MESSAGE : Nat := 0x4D

/-- Message.ID.BROADCAST_DATA (src/ant/base.py:78). -/
def BROADCAST_DATA : Nat := 0x4E

/-- Message.ID.ACKNOWLEDGE_DATA (src/ant/base.py:79). -/
def ACKNOWLEDGE_DATA : Nat := 0x4F

/-- Message.ID.BURST_TRANSFER_DATA (src/ant/base.py:80). -/
def BURST_TRANSFER_DATA : Nat := 0x50

/-- Message.ID.RESPONSE_CHANNEL (src/ant/base.py:83). -/
def RESPONSE_CHANNEL : Nat := 0x40

/-- Message.ID.RESPONSE_CHANNEL_STATUS (src/ant/base.py:86). -/
def RESPONSE_CHANNEL_STATUS : Nat := 0x52

/-- Message.ID.RESPONSE_CHANNEL_ID (src/ant/base.py:87). -/
def RESPONSE_CHANNEL_ID : Nat := 0x51

/-- Message.ID.RESPONSE_VERSION (src/ant/base.py:88). -/
def RESPONSE_VERSION : Nat := 0x3E

/-- Message.ID.RESPONSE_CAPABILITIES (src/ant/base.py:89). -/
def RESPONSE_CAPABILITIES : Nat := 0x54

/-- Message.ID.RESPONSE_SERIAL_NUMBER (src/ant/base.py:90). -/
def RESPONSE_SERIAL_NUMBER : Nat := 0x61

end Message.ID

namespace Message.Code

/-- Message.Code.EVENT_RX_BROADCAST (src/ant/base.py:128). -/
def EVENT_RX_BROADCAST : Nat := 1000

/-- Message.Code.EVENT_RX_ACKNOWLEDGED (src/ant/base.py:130). -/
def EVENT_RX_ACKNOWLEDGED : Nat := 2000

/-- Message.Code.EVENT_RX_BURST_PACKET (src/ant/base.py:132). -/
def EVENT_RX_BURST_PACKET : Nat := 3000

end Message.Code

/-- `Message.__init__` (src/ant/base.py:141-147).  The checksum is the xor of
sync, length, id and the reduce-xor of the data; `reduce` raises on an empty
`data`, hence the `Option`. -/
def Message.init (mId : Nat) (data : List Nat) : Option Message :=
  match reduceXor data with
  | none => none
  | some r =>
    some { sync := 0xa4, length := data.length, mId := mId, data := data,
           checksum := 0xa4 ^^^ data.length ^^^ mId ^^^ r }

/-- `array.array('B', l)`: every element must fit in an unsigned byte,
otherwise Python raises `OverflowError`, modelled as `none`. -/
def toByteArray (l : List Nat) : Option (List Nat) :=
  if ∀ b ∈ l, b < 256 then some l else none

/-- `Message.get` (src/ant/base.py:155-157): the wire bytes
`[sync, length, id] ++ data ++ [checksum]`, as an unsigned-byte array. -/
def Message.get (m : Message) : Option (List Nat) :=
  toByteArray ([m.sync, m.length, m.mId] ++ m.data ++ [m.checksum])

/-- `Message.parse` (src/ant/base.py:162-174): reads `buf[0]`, `buf[1]`,
`buf[2]`, `buf[3:-1]`, `buf[-1]`, asserts the sync byte, the declared length
and the checksum, and rebuilds the message with `Message(mId, data)`.
`IndexError` and failed asserts are `none`. -/
def Message.parse (buf : List Nat) : Option Message :=
  match buf[0]?, buf[1]?, buf[2]?, buf.getLast? with
  | some sync, some length, some mId, some checksum =>
    let data := (buf.drop 3).dropLast
    if sync = 0xa4 then
      if length = data.length then
        match reduceXor buf.dropLast with
        | some r => if checksum = r then Message.init mId data else none
        | none => none
      else none
    else none
  | _, _, _, _ => none

/-- The codec's encode: build a `Message` and take its wire bytes, exactly as
every write path in the source does (`Message(mId, data)` then `.get()`). -/
def encode (mId : Nat) (data : List Nat) : Option (List Nat) :=
  (Message.init mId data).bind Message.get

/-- Callback invocations of the engine: `response_function(channel, id, data)`
with `channel = None` modelled as `none`, and
`channel_event_function(channel, event, data)`. -/
inductive Delivery where
  | response (channel : Option Nat) (mId : Nat) (data : List Nat)
  | channelEvent (channel : Nat) (event : Nat) (data : List Nat)
deriving Repr, DecidableEq

/-- `Ant._on_broadcast` (src/ant/base.py:258-260): emits a channel event with
channel `data[0]`, event `EVENT_RX_BROADCAST`, data `data[1:]`.  `IndexError`
on empty data is `none`. -/
def on_broadcast (data : List Nat) : Option Delivery :=
  match data with
  | [] => none
  | c :: rest => some (.channelEvent c Message.Code.EVENT_RX_BROADCAST rest)

/-- `Ant._on_acknowledge` (src/ant/base.py:262-264). -/
def on_acknowledge (data : List Nat) : Option Delivery :=
  match data with
  | [] => none
  | c :: rest => some (.channelEvent c Message.Code.EVENT_RX_ACKNOWLEDGED rest)

/-- `Ant._on_burst_data` (src/ant/base.py:266-283): splits `data[0]` into the
3-bit sequence code (high bits) and the 5-bit channel (low bits), appends
`data[1:]` to the accumulator `_burst_data`; if the terminal flag
`sequence & 0b100` is set, emits the whole accumulator as an
`EVENT_RX_BURST_PACKET` channel event and resets the accumulator.  Returns the
new accumulator and the emitted deliveries. -/
def on_burst_data (burst_data : List Nat) (data : List Nat) :
    Option (List Nat × List Delivery) :=
  match data with
  | [] => none
  | b0 :: rest =>
    let sequence := b0 >>> 5
    let channel := b0 &&& 0b00011111
    let acc := burst_data ++ rest
    if sequence &&& 0b100 ≠ 0 then
      some ([], [.channelEvent channel Message.Code.EVENT_RX_BURST_PACKET acc])
    else
      some (acc, [])

/-- The classification block of `Ant.run` (src/ant/base.py:300-331) for a
message that was not duplicate-suppressed: the two stand-alone `if`s for
notifications and channelless responses, followed by the `if`/`elif` chain.
Returns the callback invocations in source order plus the updated burst
accumulator; `IndexError` on the payload is `none`. -/
def dispatch (burst_data : List Nat) (mId : Nat) (data : List Nat) :
    Option (List Delivery × List Nat) :=
  let d1 : List Delivery :=
    if mId = Message.ID.STARTUP_MESSAGE ∨ mId = Message.ID.SERIAL_ERROR_MESSAGE then
      [.response none mId data] else []
  let d2 : List Delivery :=
    if mId = Message.ID.RESPONSE_VERSION ∨ mId = Message.ID.RESPONSE_CAPABILITIES ∨
        mId = Message.ID.RESPONSE_SERIAL_NUMBER then
      [.response none mId data] else []
  let pre := d1 ++ d2
  if mId = Message.ID.RESPONSE_CHANNEL_STATUS ∨ mId = Message.ID.RESPONSE_CHANNEL_ID then
    match data with
    | c :: rest => some (pre ++ [.response (some c) mId rest], burst_data)
    | [] => none
  else if mId = Message.ID.RESPONSE_CHANNEL then
    match data with
    | c :: s :: rest =>
      if s ≠ 0x01 then some (pre ++ [.response (some c) s rest], burst_data)
      else some (pre ++ [.channelEvent c s rest], burst_data)
    | _ => none
  else if mId = Message.ID.BROADCAST_DATA then
    match on_broadcast data with
    | some d => some (pre ++ [d], burst_data)
    | none => none
  else if mId = Message.ID.ACKNOWLEDGE_DATA then
    match on_acknowledge data with
    | some d => some (pre ++ [d], burst_data)
    | none => none
  else if mId = Message.ID.BURST_TRANSFER_DATA then
    match on_burst_data burst_data data with
    | some (acc, ds) => some (pre ++ ds, acc)
    | none => none
  else
    some (pre, burst_data)

/-- The queue-drain loop of `Ant.run` (src/ant/base.py:339-349), after the
non-blocking acquire of the queue condition succeeded: repeatedly pop the
front message and write it, breaking after a write whenever the written
message is not burst-transfer data or its first payload byte has bit
`0b10000000` set.  Returns the written messages in order and the remaining
queue; `none` models the `IndexError` on `m._data[0]` for an empty-payload
burst frame. -/
def drainLoop : List Message → Option (List Message × List Message)
  | [] => some ([], [])
  | m :: rest =>
    if m.mId ≠ Message.ID.BURST_TRANSFER_DATA then some ([m], rest)
    else
      match m.data[0]? with
      | none => none
      | some b =>
        if b &&& 0b10000000 ≠ 0 then some ([m], rest)
        else
          match drainLoop rest with
          | none => none
          | some (w, q) => some (m :: w, q)

/-- The mutable state of the `Ant` engine that the run loop touches:
`_burst_data`, `_last_data` and `_message_queue` (src/ant/base.py:246-250). -/
structure AntState where
  burst_data : List Nat
  last_data : List Nat
  message_queue : List Message
deriving Repr, DecidableEq

/-- One iteration of the `Ant.run` loop body (src/ant/base.py:289-351) for a
message already read: the duplicate-suppression gate (297-298), the dispatch
block, the drain on a broadcast-data frame (336-349, with the non-blocking
acquire modelled as succeeding, i.e. no contention from other threads), and
the unconditional update of `_last_data` (351).  Returns the new state, the
callback invocations and the messages written to the transport. -/
def run_step (st : AntState) (message : Message) :
    Option (AntState × List Delivery × List Message) :=
  (if message.mId = Message.ID.BROADCAST_DATA ∧ message.data = st.last_data
   then some ([], st.burst_data)
   else dispatch st.burst_data message.mId message.data).bind
    (fun db =>
      (if message.mId = Message.ID.BROADCAST_DATA
       then drainLoop st.message_queue
       else some ([], st.message_queue)).bind
        (fun wq =>
          some ({ burst_data := db.2, last_data := message.data,
                  message_queue := wq.2 }, db.1, wq.1)))

/-- `Ant.read_message` (src/ant/base.py:366-379).  The blocking reads from the
transport endpoint are modelled by `incoming`, the list of chunks successive
`self._in.read(4096)` calls return.  Returns the parsed message (`none` when
parsing raised or the incoming chunks ran out), the remaining buffer, and the
unconsumed incoming chunks. -/
def read_message (buffer : List Nat) (incoming : List (List Nat)) :
    Option Message × List Nat × List (List Nat) :=
  if 5 ≤ buffer.length ∧ buffer.getD 1 0 + 4 ≤ buffer.length then
    (Message.parse (buffer.take (buffer.getD 1 0 + 4)),
     buffer.drop (buffer.getD 1 0 + 4), incoming)
  else
    match incoming with
    | [] => (none, buffer, [])
    | chunk :: rest => read_message (buffer ++ chunk) rest

/-- `Ant.request_message` (src/ant/base.py:425-427): the message handed to
`write_message`.  The `channel` argument is unused in the source; the channel
byte of the payload is the literal `0x00`. -/
def request_message (channel : Nat) (messageId : Nat) : Option Message :=
  Message.init Message.ID.REQUEST_MESSAGE [0x00, messageId]

/-- `Ant.send_acknowledged_data` (src/ant/base.py:429-431): the message handed
to `write_message_timeslot`.  The `channel` argument is unused in the source;
the channel byte of the payload is the literal `0x00`. -/
def send_acknowledged_data (channel : Nat) (broadcastData : List Nat) : Option Message :=
  Message.init Message.ID.ACKNOWLEDGE_DATA (0x00 :: broadcastData)

/-- `Ant.send_burst_transfer_packet` (src/ant/base.py:433-435): the message
handed to `write_message_timeslot`. -/
def send_burst_transfer_packet (channelSeq : Nat) (data : List Nat) : Option Message :=
  Message.init Message.ID.BURST_TRANSFER_DATA (channelSeq :: data)

/-- `Ant.send_burst_transfer` (src/ant/base.py:437-444): for each index `i`,
sequence is `i % 4`, or-ed with `0b100` on the last chunk, and the packet is
built from `channelSeq = channel | sequence << 5` and chunk `data[i]`.
Returns the messages enqueued on the timeslot queue, in order. -/
def send_burst_transfer (channel : Nat) (data : List (List Nat)) :
    Option (List Message) :=
  (List.range data.length).mapM (fun i =>
    let sequence := i % 4
    let sequence := if i = data.length - 1 then sequence ||| 0b100 else sequence
    let channelSeq := channel ||| (sequence <<< 5)
    send_burst_transfer_packet channelSeq (data.getD i []))

-- Helper lemmas about the xor fold.

theorem foldl_xor_shift (l : List Nat) : ∀ a b : Nat,
    l.foldl (fun x y => x ^^^ y) (a ^^^ b) = a ^^^ l.foldl (fun x y => x ^^^ y) b := by
  induction l with
  | nil => intro a b; rfl
  | cons c t ih =>
    intro a b
    simp only [List.foldl_cons]
    rw [Nat.xor_assoc]
    exact ih a (b ^^^ c)

theorem foldl_xor_lt (l : List Nat) : ∀ a : Nat, a < 256 → (∀ b ∈ l, b < 256) →
    l.foldl (fun x y => x ^^^ y) a < 256 := by
  induction l with
  | nil => intro a ha _; exact ha
  | cons c t ih =>
    intro a ha hb
    simp only [List.foldl_cons]
    refine ih (a ^^^ c) ?_ (fun b hbm => hb b (List.mem_cons_of_mem _ hbm))
    have h8 : (256 : Nat) = 2 ^ 8 := by norm_num
    rw [h8] at ha ⊢
    exact Nat.xor_lt_two_pow ha (h8 ▸ hb c (List.mem_cons_self _ _))

theorem reduceXor_lt (l : List Nat) (r : Nat) (h : reduceXor l = some r)
    (hb : ∀ b ∈ l, b < 256) : r < 256 := by
  cases l with
  | nil => simp [reduceXor] at h
  | cons x xs =>
    simp only [reduceXor, Option.some.injEq] at h
    subst h
    exact foldl_xor_lt xs x (hb x (List.mem_cons_self _ _))
      (fun b hbm => hb b (List.mem_cons_of_mem _ hbm))


/-- For a nonempty byte-valued payload of at most 255 bytes, `encode` produces
exactly the framed wire bytes. -/
theorem encode_nonempty (mId : Nat) (d : Nat) (ds : List Nat)
    (hid : mId < 256) (hlen : (d :: ds).length ≤ 255)
    (hbytes : ∀ b ∈ d :: ds, b < 256) :
    encode mId (d :: ds) =
      some ([0xa4, (d :: ds).length, mId] ++ (d :: ds) ++
            [0xa4 ^^^ (d :: ds).length ^^^ mId ^^^ ds.foldl (fun a b => a ^^^ b) d]) := by
  have hrlt : ds.foldl (fun a b => a ^^^ b) d < 256 :=
    reduceXor_lt (d :: ds) _ rfl hbytes
  have hcklt :
      0xa4 ^^^ (d :: ds).length ^^^ mId ^^^ ds.foldl (fun a b => a ^^^ b) d < 256 := by
    have h8 : (256 : Nat) = 2 ^ 8 := by norm_num
    rw [h8]
    refine Nat.xor_lt_two_pow (Nat.xor_lt_two_pow (Nat.xor_lt_two_pow ?_ ?_) ?_) ?_ <;>
      rw [← h8]
    · decide
    · omega
    · exact hid
    · exact hrlt
  have hinit : Message.init mId (d :: ds) =
      some ⟨0xa4, (d :: ds).length, mId, d :: ds,
            0xa4 ^^^ (d :: ds).length ^^^ mId ^^^ ds.foldl (fun a b => a ^^^ b) d⟩ := rfl
  rw [encode, hinit, Option.some_bind, Message.get, toByteArray, if_pos]
  intro b hb
  simp only [List.mem_append, List.mem_cons, List.not_mem_nil, or_false] at hb
  rcases hb with ((rfl | rfl | rfl) | (rfl | hm)) | rfl
  · decide
  · omega
  · exact hid
  · exact hbytes _ (List.mem_cons_self _ _)
  · exact hbytes _ (List.mem_cons_of_mem _ hm)
  · exact hcklt

/-- Parsing the wire bytes of a nonempty-payload frame recovers the frame. -/
theorem parse_wire (mId : Nat) (d : Nat) (ds : List Nat) :
    Message.parse ([0xa4, (d :: ds).length, mId] ++ (d :: ds) ++
        [0xa4 ^^^ (d :: ds).length ^^^ mId ^^^ ds.foldl (fun a b => a ^^^ b) d]) =
      some ⟨0xa4, (d :: ds).length, mId, d :: ds,
            0xa4 ^^^ (d :: ds).length ^^^ mId ^^^ ds.foldl (fun a b => a ^^^ b) d⟩ := by
  have hinit : Message.init mId (d :: ds) =
      some ⟨0xa4, (d :: ds).length, mId, d :: ds,
            0xa4 ^^^ (d :: ds).length ^^^ mId ^^^ ds.foldl (fun a b => a ^^^ b) d⟩ := rfl
  have h0 : ([0xa4, (d :: ds).length, mId] ++ (d :: ds) ++
      [0xa4 ^^^ (d :: ds).length ^^^ mId ^^^ ds.foldl (fun a b => a ^^^ b) d])[0]? =
      some 0xa4 := rfl
  have h1 : ([0xa4, (d :: ds).length, mId] ++ (d :: ds) ++
      [0xa4 ^^^ (d :: ds).length ^^^ mId ^^^ ds.foldl (fun a b => a ^^^ b) d])[1]? =
      some (d :: ds).length := rfl
  have h2 : ([0xa4, (d :: ds).length, mId] ++ (d :: ds) ++
      [0xa4 ^^^ (d :: ds).length ^^^ mId ^^^ ds.foldl (fun a b => a ^^^ b) d])[2]? =
      some mId := rfl
  have hL : ([0xa4, (d :: ds).length, mId] ++ (d :: ds) ++
      [0xa4 ^^^ (d :: ds).length ^^^ mId ^^^ ds.foldl (fun a b => a ^^^ b) d]).getLast? =
      some (0xa4 ^^^ (d :: ds).length ^^^ mId ^^^ ds.foldl (fun a b => a ^^^ b) d) :=
    List.getLast?_concat _
  have hdrop : (([0xa4, (d :: ds).length, mId] ++ (d :: ds) ++
      [0xa4 ^^^ (d :: ds).length ^^^ mId ^^^ ds.foldl (fun a b => a ^^^ b) d]).drop 3).dropLast =
      d :: ds := by
    show ((d :: ds) ++ [0xa4 ^^^ (d :: ds).length ^^^ mId ^^^
      ds.foldl (fun a b => a ^^^ b) d]).dropLast = d :: ds
    exact List.dropLast_concat
  have hdl : ([0xa4, (d :: ds).length, mId] ++ (d :: ds) ++
      [0xa4 ^^^ (d :: ds).length ^^^ mId ^^^ ds.foldl (fun a b => a ^^^ b) d]).dropLast =
      [0xa4, (d :: ds).length, mId] ++ (d :: ds) :=
    List.dropLast_concat
  have hrx : reduceXor ([0xa4, (d :: ds).length, mId] ++ (d :: ds)) =
      some (0xa4 ^^^ (d :: ds).length ^^^ mId ^^^ ds.foldl (fun a b => a ^^^ b) d) := by
    show some (ds.foldl (fun a b => a ^^^ b)
      (((0xa4 ^^^ (d :: ds).length) ^^^ mId) ^^^ d)) = _
    rw [foldl_xor_shift ds ((0xa4 ^^^ (d :: ds).length) ^^^ mId) d]
  simp only [Message.parse, h0, h1, h2, hL, hdrop, hdl, hrx]
  simp only [if_true]
  exact hinit

/-- C1 (amended: the payload must be nonempty): for every byte-valued id and
nonempty byte-valued payload of at most 255 bytes, decoding the bytes produced
by encoding `(id, payload)` yields exactly the frame `(id, payload)` with the
sync constant `0xa4`, the declared length, and the xor checksum. -/
theorem roundtrip_nonempty (mId : Nat) (data : List Nat)
    (hid : mId < 256) (hne : data ≠ []) (hlen : data.length ≤ 255)
    (hbytes : ∀ b ∈ data, b < 256) :
    ∃ r, reduceXor data = some r ∧
      (encode mId data).bind Message.parse =
        some ⟨0xa4, data.length, mId, data,
              0xa4 ^^^ data.length ^^^ mId ^^^ r⟩ := by
  obtain ⟨d, ds, rfl⟩ : ∃ d ds, data = d :: ds := by
    cases data with
    | nil => exact absurd rfl hne
    | cons d ds => exact ⟨d, ds, rfl⟩
  refine ⟨ds.foldl (fun a b => a ^^^ b) d, rfl, ?_⟩
  rw [encode_nonempty mId d ds hid hlen hbytes, Option.some_bind]
  exact parse_wire mId d ds

/-- C1 witness: the round trip at the concrete frame id `0x4E`, payload
`[1, 2, 3]`. -/
theorem roundtrip_nonempty_witness :
    ∃ r, reduceXor [1, 2, 3] = some r ∧
      (encode 0x4E [1, 2, 3]).bind Message.parse =
        some ⟨0xa4, ([1, 2, 3] : List Nat).length, 0x4E, [1, 2, 3],
              0xa4 ^^^ ([1, 2, 3] : List Nat).length ^^^ 0x4E ^^^ r⟩ :=
  roundtrip_nonempty 0x4E [1, 2, 3] (by decide) (by decide) (by decide) (by decide)

/-- C1 counterexample: the claim includes the empty payload, but encoding an
empty payload raises (`reduce` of an empty sequence in `Message.__init__`,
src/ant/base.py:147), so `decode(encode(0x4E, []))` is not the frame
`(0x4E, [])`, it is an error. -/
theorem roundtrip_empty_payload_fails :
    ¬ ∃ m, (encode 0x4E []).bind Message.parse = some m ∧
      m.mId = 0x4E ∧ m.data = [] := by
  rintro ⟨m, h, -, -⟩
  simp only [encode, Message.init, reduceXor, Option.none_bind] at h
  exact Option.noConfusion h

/-- C4 (amended): for byte-valued id and payload, `encode` succeeds exactly on
payloads of 1 to 255 bytes, producing `[sync, len(payload), id] ++ payload ++
[checksum]`; it fails when the payload is longer than 255 bytes (the length
byte overflows the unsigned-byte array, an error though not a dedicated
`PayloadTooLarge`), and it also fails on the empty payload (`reduce` of an
empty sequence). -/
theorem encode_bounds (mId : Nat) (data : List Nat) :
    (mId < 256 → (∀ b ∈ data, b < 256) → data ≠ [] → data.length ≤ 255 →
      ∃ r, reduceXor data = some r ∧
        encode mId data =
          some ([0xa4, data.length, mId] ++ data ++
                [0xa4 ^^^ data.length ^^^ mId ^^^ r])) ∧
    (255 < data.length → encode mId data = none) ∧
    encode mId [] = none := by
  refine ⟨?_, ?_, rfl⟩
  · intro hid hbytes hne hlen
    obtain ⟨d, ds, rfl⟩ : ∃ d ds, data = d :: ds := by
      cases data with
      | nil => exact absurd rfl hne
      | cons d ds => exact ⟨d, ds, rfl⟩
    exact ⟨_, rfl, encode_nonempty mId d ds hid hlen hbytes⟩
  · intro hgt
    obtain ⟨d, ds, rfl⟩ : ∃ d ds, data = d :: ds := by
      cases data with
      | nil => simp at hgt
      | cons d ds => exact ⟨d, ds, rfl⟩
    have hinit : Message.init mId (d :: ds) =
        some ⟨0xa4, (d :: ds).length, mId, d :: ds,
              0xa4 ^^^ (d :: ds).length ^^^ mId ^^^ ds.foldl (fun a b => a ^^^ b) d⟩ := rfl
    rw [encode, hinit, Option.some_bind, Message.get, toByteArray, if_neg]
    intro hall
    have := hall (d :: ds).length (by simp)
    omega

/-- C4 witness: encoding the request-message frame body `[0x00, 0x54]` under
id `0x4D`. -/
theorem encode_bounds_witness :
    ∃ r, reduceXor [0, 0x54] = some r ∧
      encode 0x4D [0, 0x54] =
        some ([0xa4, ([0, 0x54] : List Nat).length, 0x4D] ++ [0, 0x54] ++
              [0xa4 ^^^ ([0, 0x54] : List Nat).length ^^^ 0x4D ^^^ r]) :=
  (encode_bounds 0x4D [0, 0x54]).1 (by decide) (by decide) (by decide) (by decide)

/-- C4 counterexample: the claim says encode succeeds for every payload of
0 to 255 bytes, but the empty payload (length 0) fails: `reduce` of an empty
sequence raises in `Message.__init__` (src/ant/base.py:147). -/
theorem encode_empty_payload_none : encode 0x42 [] = none := rfl

/-- One run-loop iteration for a non-suppressed message, in terms of the
dispatch result and the drain branch. -/
theorem run_step_dispatch (st : AntState) (m : Message)
    (hnot : ¬ (m.mId = Message.ID.BROADCAST_DATA ∧ m.data = st.last_data))
    (dl : List Delivery) (burst : List Nat)
    (hd : dispatch st.burst_data m.mId m.data = some (dl, burst))
    (w q : List Message)
    (hw : (if m.mId = Message.ID.BROADCAST_DATA then drainLoop st.message_queue
           else some ([], st.message_queue)) = some (w, q)) :
    run_step st m =
      some ({ burst_data := burst, last_data := m.data, message_queue := q }, dl, w) := by
  rw [run_step, if_neg hnot, hd, Option.some_bind, hw, Option.some_bind]

/-- One run-loop iteration for a duplicate-suppressed broadcast frame. -/
theorem run_step_suppressed (st : AntState) (m : Message)
    (hb : m.mId = Message.ID.BROADCAST_DATA) (hd : m.data = st.last_data)
    (w q : List Message) (hw : drainLoop st.message_queue = some (w, q)) :
    run_step st m =
      some ({ burst_data := st.burst_data, last_data := m.data,
              message_queue := q }, [], w) := by
  rw [run_step, if_pos ⟨hb, hd⟩, Option.some_bind, if_pos hb, hw, Option.some_bind]

/-- C2: the drain triggered by an inbound broadcast-data frame, once queue
access is acquired, pops and writes the front frame, stops after writing a
non-burst frame or a burst frame whose first payload byte has the terminal
flag `0x80` set, continues past a burst frame with the flag clear, and stops
on an empty queue; a broadcast-processing run-loop step drains exactly via
this loop, and on the queue `[burst-chunk0, burst-chunk1(terminal), ack]` one
drain writes chunk0 and chunk1 in order and leaves the ack queued. -/
theorem drain_semantics :
    (drainLoop [] = some ([], [])) ∧
    (∀ (m : Message) (q : List Message), m.mId ≠ Message.ID.BURST_TRANSFER_DATA →
       drainLoop (m :: q) = some ([m], q)) ∧
    (∀ (m : Message) (q : List Message) (b : Nat),
       m.mId = Message.ID.BURST_TRANSFER_DATA → m.data[0]? = some b →
       b &&& 0b10000000 ≠ 0 → drainLoop (m :: q) = some ([m], q)) ∧
    (∀ (m : Message) (q : List Message) (b : Nat),
       m.mId = Message.ID.BURST_TRANSFER_DATA → m.data[0]? = some b →
       b &&& 0b10000000 = 0 →
       drainLoop (m :: q) = (drainLoop q).map (fun wq => (m :: wq.1, wq.2))) ∧
    (∀ (st : AntState) (m : Message) (r : AntState × List Delivery × List Message),
       m.mId = Message.ID.BROADCAST_DATA → run_step st m = some r →
       drainLoop st.message_queue = some (r.2.2, r.1.message_queue)) ∧
    (∀ (c0 c1 a : Message) (b0 b1 : Nat),
       c0.mId = Message.ID.BURST_TRANSFER_DATA → c0.data[0]? = some b0 →
       b0 &&& 0b10000000 = 0 →
       c1.mId = Message.ID.BURST_TRANSFER_DATA → c1.data[0]? = some b1 →
       b1 &&& 0b10000000 ≠ 0 →
       drainLoop [c0, c1, a] = some ([c0, c1], [a])) := by
  have hstop : ∀ (m : Message) (q : List Message),
      m.mId ≠ Message.ID.BURST_TRANSFER_DATA → drainLoop (m :: q) = some ([m], q) := by
    intro m q h
    rw [drainLoop, if_pos h]
  have hterm : ∀ (m : Message) (q : List Message) (b : Nat),
      m.mId = Message.ID.BURST_TRANSFER_DATA → m.data[0]? = some b →
      b &&& 0b10000000 ≠ 0 → drainLoop (m :: q) = some ([m], q) := by
    intro m q b h hb hflag
    rw [drainLoop, if_neg (not_not_intro h)]
    simp only [hb]
    rw [if_pos hflag]
  have hcont : ∀ (m : Message) (q : List Message) (b : Nat),
      m.mId = Message.ID.BURST_TRANSFER_DATA → m.data[0]? = some b →
      b &&& 0b10000000 = 0 →
      drainLoop (m :: q) = (drainLoop q).map (fun wq => (m :: wq.1, wq.2)) := by
    intro m q b h hb hflag
    rw [drainLoop, if_neg (not_not_intro h)]
    simp only [hb]
    rw [if_neg (not_not_intro hflag)]
    cases hq : drainLoop q with
    | none => rfl
    | some wq => rfl
  refine ⟨rfl, hstop, hterm, hcont, ?_, ?_⟩
  · intro st m r hb hrun
    rw [run_step] at hrun
    obtain ⟨db, hdb, hrun2⟩ := Option.bind_eq_some.mp hrun
    obtain ⟨wq, hwq, hr⟩ := Option.bind_eq_some.mp hrun2
    rw [if_pos hb] at hwq
    obtain rfl := Option.some.inj hr
    rw [hwq]
  · intro c0 c1 a b0 b1 h0 hb0 hf0 h1 hb1 hf1
    rw [hcont c0 [c1, a] b0 h0 hb0 hf0, hterm c1 [a] b1 h1 hb1 hf1]
    rfl

/-- C2 witness: a concrete queue with a non-terminal burst chunk, a terminal
burst chunk, and an acknowledge frame. -/
theorem drain_semantics_witness :
    drainLoop [⟨0xa4, 3, 0x50, [0x03, 1, 2], 0⟩, ⟨0xa4, 3, 0x50, [0x83, 3, 4], 0⟩,
               ⟨0xa4, 2, 0x4F, [0, 9], 0⟩] =
      some ([⟨0xa4, 3, 0x50, [0x03, 1, 2], 0⟩, ⟨0xa4, 3, 0x50, [0x83, 3, 4], 0⟩],
            [⟨0xa4, 2, 0x4F, [0, 9], 0⟩]) :=
  drain_semantics.2.2.2.2.2 _ _ _ 0x03 0x83 rfl rfl (by decide) rfl rfl (by decide)

/-- C3 (amended: the source requires at least 5 buffered bytes, not 4):
whenever the stream buffer holds at least 5 bytes and at least
`4 + declared_length` bytes (`declared_length` read from buffer offset 1),
`read_message` slices exactly `4 + declared_length` bytes from the front as
the candidate frame, removes exactly those bytes from the buffer, decodes and
returns that frame, and performs no transport read (the incoming chunks are
untouched). -/
theorem read_message_buffered (buffer : List Nat) (incoming : List (List Nat))
    (h5 : 5 ≤ buffer.length) (hlen : buffer.getD 1 0 + 4 ≤ buffer.length) :
    read_message buffer incoming =
      (Message.parse (buffer.take (buffer.getD 1 0 + 4)),
       buffer.drop (buffer.getD 1 0 + 4), incoming) := by
  rw [read_message.eq_def, if_pos ⟨h5, hlen⟩]

/-- C3 witness: a buffer holding exactly one valid 5-byte frame. -/
theorem read_message_buffered_witness :
    read_message [0xa4, 1, 0x4E, 0x21, 0xca] [[7]] =
      (Message.parse (([0xa4, 1, 0x4E, 0x21, 0xca] : List Nat).take
          (([0xa4, 1, 0x4E, 0x21, 0xca] : List Nat).getD 1 0 + 4)),
       ([0xa4, 1, 0x4E, 0x21, 0xca] : List Nat).drop
          (([0xa4, 1, 0x4E, 0x21, 0xca] : List Nat).getD 1 0 + 4), [[7]]) :=
  read_message_buffered _ _ (by decide) (by decide)

/-- C3 counterexample: a 4-byte buffer with declared length 0 satisfies the
claim's precondition (at least 4 bytes and at least `4 + declared_length`
bytes), but the source's guard `len(self._buffer) >= 5`
(src/ant/base.py:368) fails, so `read_message` performs another transport
read: the incoming chunk is consumed and merged into the buffer instead of
being left untouched. -/
theorem read_message_four_bytes_reads_again :
    4 ≤ ([0xa4, 0, 0x4E, 0xea] : List Nat).length ∧
    ([0xa4, 0, 0x4E, 0xea] : List Nat).getD 1 0 + 4 ≤
      ([0xa4, 0, 0x4E, 0xea] : List Nat).length ∧
    read_message [0xa4, 0, 0x4E, 0xea] [[7]] ≠
      (Message.parse (([0xa4, 0, 0x4E, 0xea] : List Nat).take
          (([0xa4, 0, 0x4E, 0xea] : List Nat).getD 1 0 + 4)),
       ([0xa4, 0, 0x4E, 0xea] : List Nat).drop
          (([0xa4, 0, 0x4E, 0xea] : List Nat).getD 1 0 + 4), [[7]]) := by
  refine ⟨by decide, by decide, ?_⟩
  decide

/-- Dispatch of a broadcast-data frame with nonempty payload. -/
theorem dispatch_broadcast (burst : List Nat) (c : Nat) (rest : List Nat) :
    dispatch burst Message.ID.BROADCAST_DATA (c :: rest) =
      some ([.channelEvent c Message.Code.EVENT_RX_BROADCAST rest], burst) := by
  simp [dispatch, on_broadcast, Message.ID.BROADCAST_DATA, Message.ID.STARTUP_MESSAGE,
        Message.ID.SERIAL_ERROR_MESSAGE, Message.ID.RESPONSE_VERSION,
        Message.ID.RESPONSE_CAPABILITIES, Message.ID.RESPONSE_SERIAL_NUMBER,
        Message.ID.RESPONSE_CHANNEL_STATUS, Message.ID.RESPONSE_CHANNEL_ID,
        Message.ID.RESPONSE_CHANNEL]

/-- C5: a broadcast-data frame whose payload equals `_last_data` is suppressed
(no callback delivery), one whose payload differs is delivered as a channel
event with channel `payload[0]`, event `EVENT_RX_BROADCAST`, data
`payload[1:]`; hence two consecutive identical broadcast frames produce
exactly one delivery and a third, different one produces a second delivery. -/
theorem broadcast_duplicate_suppression :
    (∀ (st : AntState) (m : Message) (w q : List Message),
       m.mId = Message.ID.BROADCAST_DATA → m.data = st.last_data →
       drainLoop st.message_queue = some (w, q) →
       run_step st m = some ({ burst_data := st.burst_data, last_data := m.data,
                               message_queue := q }, [], w)) ∧
    (∀ (st : AntState) (m : Message) (c : Nat) (rest : List Nat) (w q : List Message),
       m.mId = Message.ID.BROADCAST_DATA → m.data = c :: rest →
       m.data ≠ st.last_data →
       drainLoop st.message_queue = some (w, q) →
       run_step st m = some ({ burst_data := st.burst_data, last_data := m.data,
                               message_queue := q },
         [.channelEvent c Message.Code.EVENT_RX_BROADCAST rest], w)) ∧
    (∀ (st : AntState) (m mm : Message) (c cc : Nat) (rest rrest : List Nat),
       st.message_queue = [] →
       m.mId = Message.ID.BROADCAST_DATA → m.data = c :: rest →
       m.data ≠ st.last_data →
       mm.mId = Message.ID.BROADCAST_DATA → mm.data = cc :: rrest →
       mm.data ≠ m.data →
       ∃ st1 st2 st3,
         run_step st m = some (st1,
           [.channelEvent c Message.Code.EVENT_RX_BROADCAST rest], []) ∧
         run_step st1 m = some (st2, [], []) ∧
         run_step st2 mm = some (st3,
           [.channelEvent cc Message.Code.EVENT_RX_BROADCAST rrest], [])) := by
  have hsup : ∀ (st : AntState) (m : Message) (w q : List Message),
      m.mId = Message.ID.BROADCAST_DATA → m.data = st.last_data →
      drainLoop st.message_queue = some (w, q) →
      run_step st m = some ({ burst_data := st.burst_data, last_data := m.data,
                              message_queue := q }, [], w) :=
    fun st m w q hb hd hw => run_step_suppressed st m hb hd w q hw
  have hnew : ∀ (st : AntState) (m : Message) (c : Nat) (rest : List Nat)
      (w q : List Message),
      m.mId = Message.ID.BROADCAST_DATA → m.data = c :: rest →
      m.data ≠ st.last_data →
      drainLoop st.message_queue = some (w, q) →
      run_step st m = some ({ burst_data := st.burst_data, last_data := m.data,
                              message_queue := q },
        [.channelEvent c Message.Code.EVENT_RX_BROADCAST rest], w) := by
    intro st m c rest w q hb hdata hne hw
    refine run_step_dispatch st m ?_ _ _ ?_ w q ?_
    · rintro ⟨-, hd⟩; exact hne hd
    · rw [hb, hdata]; exact dispatch_broadcast st.burst_data c rest
    · rw [if_pos hb]; exact hw
  refine ⟨hsup, hnew, ?_⟩
  intro st m mm c cc rest rrest hq hb hdata hne hb2 hdata2 hne2
  refine ⟨⟨st.burst_data, m.data, []⟩, ⟨st.burst_data, m.data, []⟩,
    ⟨st.burst_data, mm.data, []⟩,
    hnew st m c rest [] [] hb hdata hne (by rw [hq]; rfl), ?_, ?_⟩
  · exact hsup ⟨st.burst_data, m.data, []⟩ m [] [] hb rfl rfl
  · exact hnew ⟨st.burst_data, m.data, []⟩ mm cc rrest [] [] hb2 hdata2 hne2 rfl

/-- C5 witness: the three-frame scenario at concrete frames, two identical
broadcasts with payload `[5, 1]` then one with payload `[5, 2]`. -/
theorem broadcast_duplicate_suppression_witness :
    ∃ st1 st2 st3,
      run_step ⟨[], [], []⟩ ⟨0xa4, 2, 0x4E, [5, 1], 0⟩ =
        some (st1, [.channelEvent 5 Message.Code.EVENT_RX_BROADCAST [1]], []) ∧
      run_step st1 ⟨0xa4, 2, 0x4E, [5, 1], 0⟩ = some (st2, [], []) ∧
      run_step st2 ⟨0xa4, 2, 0x4E, [5, 2], 0⟩ =
        some (st3, [.channelEvent 5 Message.Code.EVENT_RX_BROADCAST [2]], []) :=
  broadcast_duplicate_suppression.2.2 ⟨[], [], []⟩ _ _ 5 5 [1] [2] rfl rfl rfl
    (by decide) rfl rfl (by decide)

/-- C6: for every burst-transfer payload, with `seq = byte0 >> 5` and
`channel = byte0 & 0x1F`: if `seq & 0b100` is set, the remaining bytes are
appended and the whole accumulator is emitted as one completed-burst channel
event and reset; otherwise the bytes are appended and nothing is emitted; in
particular three packets with sequence codes 0, 1, 2-with-terminal-flag on
channel 3 yield exactly one event carrying the concatenation of their data,
with no event after the first two packets. -/
theorem burst_reassembly :
    (∀ (acc : List Nat) (b0 : Nat) (rest : List Nat),
       (b0 >>> 5) &&& 0b100 ≠ 0 →
       on_burst_data acc (b0 :: rest) =
         some ([], [.channelEvent (b0 &&& 0b00011111)
                      Message.Code.EVENT_RX_BURST_PACKET (acc ++ rest)])) ∧
    (∀ (acc : List Nat) (b0 : Nat) (rest : List Nat),
       (b0 >>> 5) &&& 0b100 = 0 →
       on_burst_data acc (b0 :: rest) = some (acc ++ rest, [])) ∧
    (∀ (d0 d1 d2 : List Nat),
       on_burst_data [] ((3 ||| (0 <<< 5)) :: d0) = some (d0, []) ∧
       on_burst_data d0 ((3 ||| (1 <<< 5)) :: d1) = some (d0 ++ d1, []) ∧
       on_burst_data (d0 ++ d1) ((3 ||| ((2 ||| 0b100) <<< 5)) :: d2) =
         some ([], [.channelEvent 3 Message.Code.EVENT_RX_BURST_PACKET
                     ((d0 ++ d1) ++ d2)])) := by
  have hterm : ∀ (acc : List Nat) (b0 : Nat) (rest : List Nat),
      (b0 >>> 5) &&& 0b100 ≠ 0 →
      on_burst_data acc (b0 :: rest) =
        some ([], [.channelEvent (b0 &&& 0b00011111)
                     Message.Code.EVENT_RX_BURST_PACKET (acc ++ rest)]) := by
    intro acc b0 rest h
    simp only [on_burst_data]
    rw [if_pos h]
  have hmid : ∀ (acc : List Nat) (b0 : Nat) (rest : List Nat),
      (b0 >>> 5) &&& 0b100 = 0 →
      on_burst_data acc (b0 :: rest) = some (acc ++ rest, []) := by
    intro acc b0 rest h
    simp only [on_burst_data]
    rw [if_neg (not_not_intro h)]
  refine ⟨hterm, hmid, ?_⟩
  intro d0 d1 d2
  refine ⟨?_, ?_, ?_⟩
  · have := hmid [] (3 ||| (0 <<< 5)) d0 (by decide)
    simpa using this
  · exact hmid d0 (3 ||| (1 <<< 5)) d1 (by decide)
  · have := hterm (d0 ++ d1) (3 ||| ((2 ||| 0b100) <<< 5)) d2 (by decide)
    simpa using this

/-- C6 witness: a terminal burst packet on channel 3 with accumulator
`[1, 2]`. -/
theorem burst_reassembly_witness :
    on_burst_data [1, 2] (0x83 :: [3, 4]) =
      some ([], [.channelEvent (0x83 &&& 0b00011111)
                  Message.Code.EVENT_RX_BURST_PACKET ([1, 2] ++ [3, 4])]) :=
  burst_reassembly.1 [1, 2] 0x83 [3, 4] (by decide)

/-- Dispatch of a generic channel-response frame whose secondary code is not
the distinguished value 1. -/
theorem dispatch_response_ne (burst : List Nat) (c s : Nat) (rest : List Nat)
    (hs : s ≠ 0x01) :
    dispatch burst Message.ID.RESPONSE_CHANNEL (c :: s :: rest) =
      some ([.response (some c) s rest], burst) := by
  simp [dispatch, Message.ID.RESPONSE_CHANNEL, Message.ID.STARTUP_MESSAGE,
        Message.ID.SERIAL_ERROR_MESSAGE, Message.ID.RESPONSE_VERSION,
        Message.ID.RESPONSE_CAPABILITIES, Message.ID.RESPONSE_SERIAL_NUMBER,
        Message.ID.RESPONSE_CHANNEL_STATUS, Message.ID.RESPONSE_CHANNEL_ID, hs]

/-- Dispatch of a generic channel-response frame whose secondary code is the
distinguished value 1. -/
theorem dispatch_response_eq (burst : List Nat) (c : Nat) (rest : List Nat) :
    dispatch burst Message.ID.RESPONSE_CHANNEL (c :: 0x01 :: rest) =
      some ([.channelEvent c 0x01 rest], burst) := by
  simp [dispatch, Message.ID.RESPONSE_CHANNEL, Message.ID.STARTUP_MESSAGE,
        Message.ID.SERIAL_ERROR_MESSAGE, Message.ID.RESPONSE_VERSION,
        Message.ID.RESPONSE_CAPABILITIES, Message.ID.RESPONSE_SERIAL_NUMBER,
        Message.ID.RESPONSE_CHANNEL_STATUS, Message.ID.RESPONSE_CHANNEL_ID]

/-- C7: a decoded frame with the generic channel-response id `0x40` is
dispatched to the response callback with channel `payload[0]`, id
`payload[1]`, data `payload[2:]` when `payload[1]` is not 1, and to the
channel-event callback with channel `payload[0]`, event `payload[1]`, data
`payload[2:]` when `payload[1]` equals 1. -/
theorem response_channel_routing :
    (∀ (st : AntState) (m : Message) (c s : Nat) (rest : List Nat),
       m.mId = Message.ID.RESPONSE_CHANNEL → m.data = c :: s :: rest →
       s ≠ 0x01 →
       run_step st m = some ({ burst_data := st.burst_data, last_data := m.data,
                               message_queue := st.message_queue },
         [.response (some c) s rest], [])) ∧
    (∀ (st : AntState) (m : Message) (c : Nat) (rest : List Nat),
       m.mId = Message.ID.RESPONSE_CHANNEL → m.data = c :: 0x01 :: rest →
       run_step st m = some ({ burst_data := st.burst_data, last_data := m.data,
                               message_queue := st.message_queue },
         [.channelEvent c 0x01 rest], [])) := by
  constructor
  · intro st m c s rest hb hdata hs
    refine run_step_dispatch st m ?_ _ _ ?_ [] st.message_queue ?_
    · rintro ⟨h1, -⟩; rw [hb] at h1; exact absurd h1 (by decide)
    · rw [hb, hdata]; exact dispatch_response_ne st.burst_data c s rest hs
    · rw [if_neg (show ¬ m.mId = Message.ID.BROADCAST_DATA by rw [hb]; decide)]
  · intro st m c rest hb hdata
    refine run_step_dispatch st m ?_ _ _ ?_ [] st.message_queue ?_
    · rintro ⟨h1, -⟩; rw [hb] at h1; exact absurd h1 (by decide)
    · rw [hb, hdata]; exact dispatch_response_eq st.burst_data c rest
    · rw [if_neg (show ¬ m.mId = Message.ID.BROADCAST_DATA by rw [hb]; decide)]

/-- C7 witness: a channel-response frame with secondary code 5 routes to the
response callback with id 5. -/
theorem response_channel_routing_witness :
    run_step ⟨[], [], []⟩ ⟨0xa4, 3, 0x40, [2, 5, 0], 0⟩ =
      some (⟨[], [2, 5, 0], []⟩, [.response (some 2) 5 [0]], []) :=
  response_channel_routing.1 ⟨[], [], []⟩ ⟨0xa4, 3, 0x40, [2, 5, 0], 0⟩ 2 5 [0]
    rfl rfl (by decide)

/-- `mapM` over `Option` with an everywhere-defined function succeeds and maps
pointwise. -/
theorem mapM_option_spec {α β : Type} (f : α → Option β) :
    ∀ l : List α, (∀ a ∈ l, (f a).isSome) →
      ∃ bs, l.mapM f = some bs ∧ bs.length = l.length ∧
        ∀ (i : Nat) (a : α), l[i]? = some a → bs[i]? = f a := by
  intro l
  induction l with
  | nil =>
    intro _
    exact ⟨[], rfl, rfl, by intro i a h; simp at h⟩
  | cons x t ih =>
    intro h
    obtain ⟨b, hb⟩ := Option.isSome_iff_exists.mp (h x (List.mem_cons_self _ _))
    obtain ⟨bs, hbs, hlen, hget⟩ := ih (fun a ha => h a (List.mem_cons_of_mem _ ha))
    refine ⟨b :: bs, ?_, by simp [hlen], ?_⟩
    · rw [List.mapM_cons, hb, hbs]; rfl
    · intro i a hia
      cases i with
      | zero =>
        simp only [List.getElem?_cons_zero, Option.some.injEq] at hia
        subst hia
        simp only [List.getElem?_cons_zero, hb]
      | succ n =>
        simp only [List.getElem?_cons_succ] at hia ⊢
        exact hget n a hia

/-- Splitting the channelSeq byte: or-ing the terminal flag into the sequence
code before the shift equals or-ing the shifted flag in afterwards. -/
theorem channelSeq_split (channel i n : Nat) :
    channel ||| ((if i = n then i % 4 ||| 0b100 else i % 4) <<< 5) =
      (channel ||| ((i % 4) <<< 5)) |||
        (if i = n then 0b100 <<< 5 else 0) := by
  by_cases h : i = n
  · rw [if_pos h, if_pos h]
    have h4 : i % 4 = 0 ∨ i % 4 = 1 ∨ i % 4 = 2 ∨ i % 4 = 3 := by omega
    rcases h4 with h4 | h4 | h4 | h4 <;> rw [h4] <;> simp [Nat.or_assoc]
  · rw [if_neg h, if_neg h, Nat.or_zero]

/-- C8: `send_burst_transfer(channel, chunks)` enqueues, via the
timeslot-queued path and in chunk order, one burst-transfer-data frame per
chunk; the i-th frame's first payload byte is `channel | ((i % 4) << 5)`,
with the terminal flag `0b100 << 5` additionally or-ed in on the final chunk,
and the rest of its payload is the chunk's data. -/
theorem send_burst_transfer_spec (channel : Nat) (chunks : List (List Nat)) :
    ∃ msgs, send_burst_transfer channel chunks = some msgs ∧
      msgs.length = chunks.length ∧
      ∀ (i : Nat) (chunk : List Nat), chunks[i]? = some chunk →
        ∃ m, msgs[i]? = some m ∧ m.mId = Message.ID.BURST_TRANSFER_DATA ∧
          m.data = ((channel ||| ((i % 4) <<< 5)) |||
                    (if i = chunks.length - 1 then 0b100 <<< 5 else 0)) :: chunk := by
  obtain ⟨msgs, hm, hlen, hget⟩ :=
    mapM_option_spec
      (fun i =>
        send_burst_transfer_packet
          (channel ||| ((if i = chunks.length - 1 then i % 4 ||| 0b100 else i % 4) <<< 5))
          (chunks.getD i []))
      (List.range chunks.length)
      (fun i _ => rfl)
  refine ⟨msgs, hm, by rw [hlen, List.length_range], ?_⟩
  intro i chunk hchunk
  have hi : i < chunks.length := by
    by_contra hcon
    push_neg at hcon
    rw [List.getElem?_eq_none hcon] at hchunk
    exact Option.noConfusion hchunk
  have hri : (List.range chunks.length)[i]? = some i := List.getElem?_range hi
  have hfi := hget i i hri
  have hchunkD : chunks.getD i [] = chunk := by
    rw [List.getD_eq_getElem?_getD, hchunk]
    rfl
  rw [hchunkD] at hfi
  refine ⟨_, hfi, rfl, ?_⟩
  show (channel ||| ((if i = chunks.length - 1 then i % 4 ||| 0b100 else i % 4) <<< 5))
      :: chunk = _
  rw [channelSeq_split channel i (chunks.length - 1)]

/-- C8 witness: a three-chunk burst on channel 3; the last frame's first
payload byte carries the terminal flag. -/
theorem send_burst_transfer_spec_witness :
    ∃ msgs, send_burst_transfer 3 [[1, 2], [3, 4], [5, 6]] = some msgs ∧
      msgs.length = 3 ∧
      ∃ m, msgs[2]? = some m ∧ m.mId = Message.ID.BURST_TRANSFER_DATA ∧
        m.data = ((3 ||| ((2 % 4) <<< 5)) |||
                  (if 2 = 3 - 1 then 0b100 <<< 5 else 0)) :: [5, 6] := by
  obtain ⟨msgs, hm, hlen, hget⟩ := send_burst_transfer_spec 3 [[1, 2], [3, 4], [5, 6]]
  exact ⟨msgs, hm, by simpa using hlen, hget 2 [5, 6] (by decide)⟩

/-- C9: after one run-loop iteration finishes processing any inbound frame,
of any message id, suppressed or not, `_last_data` equals that frame's
payload (src/ant/base.py:351 runs unconditionally). -/
theorem last_data_overwritten (st : AntState) (m : Message)
    (st' : AntState) (ds : List Delivery) (ws : List Message)
    (h : run_step st m = some (st', ds, ws)) : st'.last_data = m.data := by
  rw [run_step] at h
  obtain ⟨db, hdb, h2⟩ := Option.bind_eq_some.mp h
  obtain ⟨wq, hwq, h3⟩ := Option.bind_eq_some.mp h2
  have h4 := Option.some.inj h3
  have h5 : st' = { burst_data := db.2, last_data := m.data, message_queue := wq.2 } :=
    (congrArg Prod.fst h4).symm
  rw [h5]

/-- C9 witness: a startup-notification frame overwrites `_last_data` with its
payload even though it is not broadcast data. -/
theorem last_data_overwritten_witness :
    (AntState.mk [] [0x20] []).last_data = [0x20] :=
  last_data_overwritten ⟨[], [], []⟩ ⟨0xa4, 1, 0x6F, [0x20], 0⟩
    ⟨[], [0x20], []⟩ [.response none 0x6F [0x20]] [] (by decide)

/-- C10: `request_message` and `send_acknowledged_data` ignore their channel
argument entirely: the produced frame's channel byte is the literal `0x00`
and the frame does not depend on the channel argument. -/
theorem channel_argument_ignored :
    (∀ ch1 ch2 messageId : Nat,
       request_message ch1 messageId = request_message ch2 messageId) ∧
    (∀ ch messageId : Nat, ∃ m, request_message ch messageId = some m ∧
       m.mId = Message.ID.REQUEST_MESSAGE ∧ m.data = [0x00, messageId]) ∧
    (∀ (ch1 ch2 : Nat) (d : List Nat),
       send_acknowledged_data ch1 d = send_acknowledged_data ch2 d) ∧
    (∀ (ch : Nat) (d : List Nat), ∃ m, send_acknowledged_data ch d = some m ∧
       m.mId = Message.ID.ACKNOWLEDGE_DATA ∧ m.data = 0x00 :: d) := by
  refine ⟨fun _ _ _ => rfl, ?_, fun _ _ _ => rfl, ?_⟩
  · intro ch messageId
    exact ⟨_, rfl, rfl, rfl⟩
  · intro ch d
    exact ⟨_, rfl, rfl, rfl⟩

/-- C10 witness: two different channel arguments produce the same
request-message frame. -/
theorem channel_argument_ignored_witness :
    request_message 1 0x54 = request_message 9 0x54 :=
  channel_argument_ignored.1 1 9 0x54
